import Mathlib

/-!
Shallow embedding of `src/network/SnapmakerOutputDevicePlugin.py`
(the Snapmaker J1 discovery plugin) and proofs about its behaviour.

Python strings are modelled as lists of characters, Python exceptions as an
explicit error type threaded through `Except`/`Option`, and the external
collaborators (the Qt network layer and the output-device manager) as plain
data supplied to the modelled functions.
-/

/-- Python strings, modelled as lists of characters. -/
abbrev PyStr := List Char

/-- Model of Python `str.split(sep)` for a one-character separator: every
occurrence of the separator splits, empty segments are kept, and the result
is never empty (Python's `"".split' behaviour gives one empty segment). -/
def pySplit (sep : Char) : PyStr → List PyStr
  | [] => [[]]
  | c :: rest =>
    let r := pySplit sep rest
    if c = sep then [] :: r
    else (c :: r.headD []) :: r.tail

/-- Python exceptions raised by the modelled code paths. -/
inductive PyErr
  | valueError
  | attributeError
  deriving DecidableEq, Repr

/-- Model of the Python unpacking `a, b = xs` of a list into two variables:
it raises `ValueError` unless the list has exactly two elements. -/
def unpack2 {α : Type} : List α → Except PyErr (α × α)
  | [a, b] => .ok (a, b)
  | _ => .error .valueError

/-- Model of Python `dict` assignment `d[k] = v`: overwrite the value in
place when the key already exists, otherwise append the binding. -/
def dictSet {β : Type} : List (PyStr × β) → PyStr → β → List (PyStr × β)
  | [], k, v => [(k, v)]
  | (k', v') :: d, k, v =>
    if k' = k then (k, v) :: d else (k', v') :: dictSet d k v

/-- Model of Python `d.get(k, None)`. -/
def dictGet {β : Type} : List (PyStr × β) → PyStr → Option β
  | [], _ => none
  | (k', v') :: d, k => if k' = k then some v' else dictGet d k

/-- Sanity instance: decidable equality for `Except` results. -/
instance {ε α : Type} [DecidableEq ε] [DecidableEq α] : DecidableEq (Except ε α) := fun x y =>
  match x, y with
  | .ok a, .ok b => decidable_of_iff (a = b) (by simp)
  | .ok _, .error _ => isFalse (fun h => Except.noConfusion h)
  | .error _, .ok _ => isFalse (fun h => Except.noConfusion h)
  | .error e, .error f => decidable_of_iff (e = f) (by simp)

/-- The parsed fields of a device advertisement, as extracted by
`__parseMessage` before filtering and registration. -/
structure Advert where
  deviceId : PyStr
  name : PyStr
  address : PyStr
  properties : List (PyStr × PyStr)
  deriving DecidableEq, Repr

/-- The properties loop of `__parseMessage`: for each remaining segment,
skip it when it has no `:`, otherwise run the two-variable unpacking
`key, value = part.split(":")` and assign `properties[key] = value`. -/
def buildProperties : List (PyStr × PyStr) → List PyStr → Except PyErr (List (PyStr × PyStr))
  | props, [] => .ok props
  | props, part :: rest =>
    if ':' ∈ part then
      match unpack2 (pySplit ':' part) with
      | .error e => .error e
      | .ok (key, value) => buildProperties (dictSet props key value) rest
    else
      buildProperties props rest

/-- The parsing phase of `__parseMessage` (splitting on `|`, the header
check, `name, address = device_id.split("@")`, and the properties loop).
`ok none` is the silent early return on an invalid message; a `ValueError`
from either two-variable unpacking surfaces as an `error`. -/
def parseAdvert (msg : PyStr) : Except PyErr (Option Advert) :=
  let parts := pySplit '|' msg
  if parts.length < 1 ∨ '@' ∉ parts.headD [] then
    .ok none
  else
    let device_id := parts.headD []
    match unpack2 (pySplit '@' device_id) with
    | .error e => .error e
    | .ok (name, address) =>
      match buildProperties [] parts.tail with
      | .error e => .error e
      | .ok properties => .ok (some ⟨device_id, name, address, properties⟩)

/-- Modelled from the spec: the constant `MACHINE_NAME` is imported from
`config.py`, which is not among the given sources; the spec describes it as
the configured product identity string of the Snapmaker J1 series. -/
def MACHINE_NAME : PyStr := ("Snapmaker J1").toList

/-- Model of `SnapmakerJ1OutputDevice(device_id, address, properties)`:
the record handed to the external output-device manager. -/
structure DeviceRecord where
  deviceId : PyStr
  address : PyStr
  properties : List (PyStr × PyStr)
  deriving DecidableEq, Repr

/-- Model of the external output-device manager as the list of registered
device records, in insertion order. -/
abbrev Registry := List DeviceRecord

/-- Model of `getOutputDeviceManager().getOutputDevice(device_id)`:
look up the first record with the given device id. -/
def getOutputDevice : Registry → PyStr → Option DeviceRecord
  | [], _ => none
  | r :: rest, id => if r.deviceId = id then some r else getOutputDevice rest id

/-- Model of `getOutputDeviceManager().addOutputDevice(device)`. -/
def addOutputDevice (reg : Registry) (r : DeviceRecord) : Registry := reg ++ [r]

/-- All records of the registry carrying the given device id (used to state
uniqueness of registration). -/
def recordsFor : Registry → PyStr → List DeviceRecord
  | [], _ => []
  | r :: rest, id => if r.deviceId = id then r :: recordsFor rest id else recordsFor rest id

/-- The registration tail of `__parseMessage`: look the device id up in the
manager and insert a new record only when the lookup found nothing. -/
def registerDevice (reg : Registry) (id address : PyStr)
    (properties : List (PyStr × PyStr)) : Registry :=
  match getOutputDevice reg id with
  | some _ => reg
  | none => addOutputDevice reg ⟨id, address, properties⟩

/-- `__parseMessage` as a transformer of the external registry: parse the
message, drop it unless its `model` property equals `MACHINE_NAME`, and
otherwise register the device. -/
def parseMessageStep (reg : Registry) (msg : PyStr) : Except PyErr Registry :=
  match parseAdvert msg with
  | .error e => .error e
  | .ok none => .ok reg
  | .ok (some adv) =>
    if dictGet adv.properties (("model").toList) ≠ some MACHINE_NAME then .ok reg
    else .ok (registerDevice reg adv.deviceId adv.address adv.properties)

/-- Model of strict UTF-8 decoding, as performed by Python's
`bytes.decode("utf-8")`: `none` on any encoding error (where Python raises
`UnicodeDecodeError`).  Rejects stray continuation bytes, overlong
encodings, surrogate code points and code points above `U+10FFFF`. -/
def utf8Decode : List Nat → Option PyStr
  | [] => some []
  | b :: rest =>
    if b < 0x80 then
      (utf8Decode rest).map (fun cs => Char.ofNat b :: cs)
    else if b < 0xC2 then none
    else if b < 0xE0 then
      match rest with
      | b1 :: rest2 =>
        if 0x80 ≤ b1 ∧ b1 < 0xC0 then
          (utf8Decode rest2).map (fun cs => Char.ofNat ((b - 0xC0) * 64 + (b1 - 0x80)) :: cs)
        else none
      | [] => none
    else if b < 0xF0 then
      match rest with
      | b1 :: b2 :: rest3 =>
        if (0x80 ≤ b1 ∧ b1 < 0xC0) ∧ (0x80 ≤ b2 ∧ b2 < 0xC0) then
          let cp := (b - 0xE0) * 4096 + (b1 - 0x80) * 64 + (b2 - 0x80)
          if 0x800 ≤ cp ∧ ¬ (0xD800 ≤ cp ∧ cp < 0xE000) then
            (utf8Decode rest3).map (fun cs => Char.ofNat cp :: cs)
          else none
        else none
      | _ => none
    else if b < 0xF5 then
      match rest with
      | b1 :: b2 :: b3 :: rest4 =>
        if (0x80 ≤ b1 ∧ b1 < 0xC0) ∧ (0x80 ≤ b2 ∧ b2 < 0xC0) ∧ (0x80 ≤ b3 ∧ b3 < 0xC0) then
          let cp := (b - 0xF0) * 262144 + (b1 - 0x80) * 4096 + (b2 - 0x80) * 64 + (b3 - 0x80)
          if 0x10000 ≤ cp ∧ cp < 0x110000 then
            (utf8Decode rest4).map (fun cs => Char.ofNat cp :: cs)
          else none
        else none
      | _ => none
    else none

/-- Model of an inbound UDP datagram as inspected by `_readSocket`: the
transport validity flag, whether the sender address is null, the sender
address text, and the payload bytes. -/
structure Datagram where
  valid : Bool
  senderNull : Bool
  sender : PyStr
  bytes : List Nat
  deriving DecidableEq, Repr

/-- One iteration of the `_readSocket` drain loop: drop datagrams that are
transport-invalid or have a null sender, decode the payload as UTF-8 (a
`UnicodeDecodeError` is caught by `except UnicodeDecodeError: pass`), then
run `__parseMessage`; any other exception propagates. -/
def readSocketStep (reg : Registry) (d : Datagram) : Except PyErr Registry :=
  if d.valid && !d.senderNull then
    match utf8Decode d.bytes with
    | none => .ok reg
    | some msg => parseMessageStep reg msg
  else .ok reg

/-- The whole `_readSocket` drain loop over the pending datagrams. -/
def readSocket (reg : Registry) : List Datagram → Except PyErr Registry
  | [] => .ok reg
  | d :: ds =>
    match readSocketStep reg d with
    | .error e => .error e
    | .ok reg2 => readSocket reg2 ds

/-- Network-layer protocol of an address, as reported by
`QAbstractSocket.NetworkLayerProtocol`. -/
inductive NetProtocol
  | ipv4
  | ipv6
  | other
  deriving DecidableEq, Repr

/-- Model of a `QHostAddress`, as far as the plugin inspects it. -/
structure HostAddress where
  isLoopback : Bool
  protocol : NetProtocol
  text : PyStr
  deriving DecidableEq, Repr

/-- Model of a `QNetworkAddressEntry`: the interface address and the
subnet broadcast address. -/
structure AddressEntry where
  ip : HostAddress
  broadcast : HostAddress
  deriving DecidableEq, Repr

/-- Model of a bound `QUdpSocket`: the local address it was bound to and,
on Windows, the explicitly chosen port. -/
structure UdpSocket where
  boundAddr : HostAddress
  boundPort : Option Nat
  deriving DecidableEq, Repr

/-- An element of `self._discover_sockets`: the `(socket, address_entry)`
tuple appended by `__prepare`. -/
abbrev Channel := UdpSocket × AddressEntry

/-- The two `continue` filters of `__prepare`: an address entry survives
when its address is not loopback and its protocol is IPv4. -/
def qualifies (e : AddressEntry) : Bool :=
  !e.ip.isLoopback && (e.ip.protocol == NetProtocol.ipv4)

/-- The `DISCOVER_PORT` module constant. -/
def DISCOVER_PORT : Nat := 20054

/-- The body of `__prepare`'s nested loops over the flattened address
entries, threading `available_port` (used only on Windows, where the socket
is bound to an explicit incrementing port). -/
def prepareLoop (isWindows : Bool) : Nat → List AddressEntry → List Channel
  | _, [] => []
  | availablePort, e :: rest =>
    if qualifies e then
      let socket : UdpSocket :=
        if isWindows then ⟨e.ip, some availablePort⟩ else ⟨e.ip, none⟩
      let availablePort2 := if isWindows then availablePort + 1 else availablePort
      (socket, e) :: prepareLoop isWindows availablePort2 rest
    else
      prepareLoop isWindows availablePort rest

/-- `__prepare`: reset the channel list, then create one bound socket per
qualifying address entry of every interface, with `available_port` starting
at 20054. -/
def prepare (isWindows : Bool) (interfaces : List (List AddressEntry)) : List Channel :=
  prepareLoop isWindows 20054 interfaces.flatten

/-- One outbound probe datagram, as sent by
`socket.writeDatagram(b"discover", address_entry.broadcast(), DISCOVER_PORT)`. -/
structure Probe where
  payload : List Nat
  dest : HostAddress
  port : Nat
  deriving DecidableEq, Repr

/-- The bytes of the literal `b"discover"`. -/
def discoverPayload : List Nat := (("discover").toList).map Char.toNat

/-- The plugin's mutable state: the repeating discovery timer and the
`self._discover_sockets` list. -/
structure PluginState where
  timerActive : Bool
  channels : List Channel
  deriving DecidableEq, Repr

/-- `__discover`: when the channel list is empty, rebuild it with
`__prepare`; then send one probe per channel to the entry's broadcast
address on `DISCOVER_PORT`.  Returns the new state and the probes sent. -/
def discover (isWindows : Bool) (interfaces : List (List AddressEntry))
    (st : PluginState) : PluginState × List Probe :=
  let channels :=
    if st.channels = [] then prepare isWindows interfaces else st.channels
  ({ st with channels := channels },
   channels.map (fun ch => ⟨discoverPayload, ch.2.broadcast, DISCOVER_PORT⟩))

/-- Python attribute dispatch for the call `socket.abort()` inside `stop`:
the loop variable ranges over the elements of `self._discover_sockets`,
which are `(socket, address_entry)` tuples, and a tuple has no attribute
`abort`, so the call raises `AttributeError`. -/
def tupleAbort : Channel → Except PyErr Unit := fun _ => .error .attributeError

/-- The `for socket in self._discover_sockets: socket.abort()` loop of
`stop`, returning the first exception it raises, if any. -/
def abortLoop : List Channel → Option PyErr
  | [] => none
  | ch :: rest =>
    match tupleAbort ch with
    | .error e => some e
    | .ok _ => abortLoop rest

/-- `stop()`: cancel the timer when it is active, then run the abort loop
over the channel list.  Returns the state as mutated up to the point where
an exception (if any) is raised; the channel list is never cleared. -/
def stop (st : PluginState) : PluginState × Option PyErr :=
  let st1 : PluginState :=
    if st.timerActive then { st with timerActive := false } else st
  (st1, abortLoop st1.channels)

/-- `start()`: start the timer when it is not already active. -/
def start (st : PluginState) : PluginState :=
  if st.timerActive then st else { st with timerActive := true }

/- Concrete address entries and interface enumerations used as inputs in
counterexamples and witnesses. -/

/-- A qualifying IPv4 address entry. -/
def entryA : AddressEntry :=
  ⟨⟨false, .ipv4, ("10.0.0.5").toList⟩, ⟨false, .ipv4, ("10.0.0.255").toList⟩⟩

/-- A second qualifying IPv4 address entry. -/
def entryB : AddressEntry :=
  ⟨⟨false, .ipv4, ("192.168.0.7").toList⟩, ⟨false, .ipv4, ("192.168.0.255").toList⟩⟩

/-- The IPv4 loopback entry, excluded by the first `continue`. -/
def entryLoop : AddressEntry :=
  ⟨⟨true, .ipv4, ("127.0.0.1").toList⟩, ⟨true, .ipv4, ("127.255.255.255").toList⟩⟩

/-- A link-local IPv6 entry, excluded by the second `continue`. -/
def entryV6 : AddressEntry :=
  ⟨⟨false, .ipv6, ("fe80::1").toList⟩, ⟨false, .ipv6, ("ff02::1").toList⟩⟩

/-- An enumeration with one qualifying address. -/
def ifacesA : List (List AddressEntry) := [[entryA, entryLoop], [entryV6]]

/-- A different enumeration with one other qualifying address. -/
def ifacesB : List (List AddressEntry) := [[entryB]]

/-- An enumeration with two qualifying addresses among noise. -/
def ifacesTwo : List (List AddressEntry) := [[entryA, entryLoop], [entryB, entryV6]]

/- Helper lemmas about the split, unpack, dict and registry models. -/

lemma pySplit_ne_nil (sep : Char) (s : PyStr) : pySplit sep s ≠ [] := by
  cases s with
  | nil => simp [pySplit]
  | cons c rest =>
    simp only [pySplit]
    split <;> simp

lemma pySplit_of_not_mem {sep : Char} {s : PyStr} (h : sep ∉ s) : pySplit sep s = [s] := by
  induction s with
  | nil => rfl
  | cons c rest ih =>
    have hc : ¬ c = sep := by
      intro hh
      subst hh
      exact h (List.mem_cons_self _ _)
    have hr : sep ∉ rest := fun hm => h (List.mem_cons_of_mem c hm)
    simp [pySplit, hc, ih hr]

lemma pySplit_append_cons (sep : Char) {x : PyStr} (y : PyStr) (h : sep ∉ x) :
    pySplit sep (x ++ sep :: y) = x :: pySplit sep y := by
  induction x with
  | nil => simp [pySplit]
  | cons c x2 ih =>
    have hc : ¬ c = sep := by
      intro hh
      subst hh
      exact h (List.mem_cons_self _ _)
    have hx : sep ∉ x2 := fun hm => h (List.mem_cons_of_mem c hm)
    simp [pySplit, hc, ih hx, pySplit_ne_nil]

lemma pySplit_length (sep : Char) (s : PyStr) :
    (pySplit sep s).length = List.count sep s + 1 := by
  induction s with
  | nil => simp [pySplit]
  | cons c rest ih =>
    by_cases hc : c = sep
    · subst hc
      simp [pySplit, ih, List.count_cons]
    · have hpos : 0 < (pySplit sep rest).length :=
        List.length_pos.mpr (pySplit_ne_nil sep rest)
      have hc2 : ¬ sep = c := fun hh => hc hh.symm
      simp [pySplit, hc, List.count_cons, hc2]
      omega

lemma unpack2_eq_error {α : Type} : ∀ (l : List α), l.length ≠ 2 → unpack2 l = .error .valueError
  | [], _ => rfl
  | [_], _ => rfl
  | [_, _], h => absurd rfl h
  | _ :: _ :: _ :: _, _ => rfl

lemma buildProperties_skip (props : List (PyStr × PyStr)) (part : PyStr) (rest : List PyStr)
    (h : ':' ∉ part) :
    buildProperties props (part :: rest) = buildProperties props rest := by
  simp [buildProperties, h]

lemma buildProperties_pair (props : List (PyStr × PyStr)) (k v : PyStr) (rest : List PyStr)
    (hk : ':' ∉ k) (hv : ':' ∉ v) :
    buildProperties props ((k ++ ':' :: v) :: rest) = buildProperties (dictSet props k v) rest := by
  have hmem : ':' ∈ k ++ ':' :: v := List.mem_append_right k (List.mem_cons_self ':' v)
  have hsplit : pySplit ':' (k ++ ':' :: v) = [k, v] := by
    rw [pySplit_append_cons ':' v hk, pySplit_of_not_mem hv]
  simp [buildProperties, hmem, hsplit, unpack2]

lemma buildProperties_multi (props : List (PyStr × PyStr)) (k v1 v2 : PyStr) (rest : List PyStr)
    (hk : ':' ∉ k) (hv1 : ':' ∉ v1) :
    buildProperties props ((k ++ ':' :: (v1 ++ ':' :: v2)) :: rest) = .error .valueError := by
  have hmem : ':' ∈ k ++ ':' :: (v1 ++ ':' :: v2) :=
    List.mem_append_right k (List.mem_cons_self ':' _)
  have hsplit : pySplit ':' (k ++ ':' :: (v1 ++ ':' :: v2)) = k :: v1 :: pySplit ':' v2 := by
    rw [pySplit_append_cons ':' _ hk, pySplit_append_cons ':' v2 hv1]
  have hlen : (pySplit ':' (k ++ ':' :: (v1 ++ ':' :: v2))).length ≠ 2 := by
    rw [hsplit]
    have hpos : 0 < (pySplit ':' v2).length :=
      List.length_pos.mpr (pySplit_ne_nil ':' v2)
    simp only [List.length_cons, ne_eq]
    omega
  simp [buildProperties, hmem, unpack2_eq_error _ hlen]

lemma recordsFor_append (reg1 reg2 : Registry) (id : PyStr) :
    recordsFor (reg1 ++ reg2) id = recordsFor reg1 id ++ recordsFor reg2 id := by
  induction reg1 with
  | nil => rfl
  | cons r rest ih =>
    simp only [List.cons_append, recordsFor]
    split <;> simp [ih]

lemma recordsFor_eq_nil {reg : Registry} {id : PyStr}
    (h : getOutputDevice reg id = none) : recordsFor reg id = [] := by
  induction reg with
  | nil => rfl
  | cons r rest ih =>
    simp only [getOutputDevice] at h
    simp only [recordsFor]
    by_cases hr : r.deviceId = id
    · simp [hr] at h
    · simp only [hr, if_false] at h ⊢
      exact ih h

lemma getOutputDevice_append_right {reg : Registry} {id : PyStr}
    (h : getOutputDevice reg id = none) (reg2 : Registry) :
    getOutputDevice (reg ++ reg2) id = getOutputDevice reg2 id := by
  induction reg with
  | nil => rfl
  | cons r rest ih =>
    simp only [getOutputDevice, List.cons_append] at h ⊢
    by_cases hr : r.deviceId = id
    · simp [hr] at h
    · simp only [hr, if_false] at h ⊢
      exact ih h

lemma prepareLoop_map_snd (isW : Bool) (port : Nat) (entries : List AddressEntry) :
    (prepareLoop isW port entries).map Prod.snd = entries.filter qualifies := by
  induction entries generalizing port with
  | nil => rfl
  | cons e rest ih =>
    by_cases hq : qualifies e = true
    · simp [prepareLoop, hq, List.filter_cons, ih]
    · simp [prepareLoop, hq, List.filter_cons, ih]

lemma prepareLoop_map_bound (isW : Bool) (port : Nat) (entries : List AddressEntry) :
    (prepareLoop isW port entries).map (fun ch => ch.1.boundAddr) =
      (entries.filter qualifies).map (fun e => e.ip) := by
  induction entries generalizing port with
  | nil => rfl
  | cons e rest ih =>
    by_cases hq : qualifies e = true
    · cases isW <;> simp [prepareLoop, hq, List.filter_cons, ih]
    · simp [prepareLoop, hq, List.filter_cons, ih]

lemma prepare_all_qualifies (isW : Bool) (interfaces : List (List AddressEntry)) :
    ∀ ch ∈ prepare isW interfaces, qualifies ch.2 = true := by
  intro ch hch
  have h1 : ch.2 ∈ (prepare isW interfaces).map Prod.snd := List.mem_map_of_mem Prod.snd hch
  simp only [prepare, prepareLoop_map_snd] at h1
  exact List.of_mem_filter h1

/- Sanity checks of the codec model on the docstring example. -/
example : parseAdvert (("Snapmaker J1@172.18.0.2|model:J1|status:IDLE").toList) =
    .ok (some ⟨("Snapmaker J1@172.18.0.2").toList, ("Snapmaker J1").toList,
               ("172.18.0.2").toList,
               [(("model").toList, ("J1").toList), (("status").toList, ("IDLE").toList)]⟩) := by
  decide

example : parseAdvert (("no separator here").toList) = .ok none := by decide

/- Claim theorems. -/

/-- C1: the claim states that `stop()` aborts every open channel's socket and
completes without raising in every state, including one where discovery
channels exist after a prepare.  The code instead stores
`(socket, address_entry)` tuples in `_discover_sockets` and `stop()` calls
`.abort()` on each tuple, which raises `AttributeError`: evaluated here on the
state produced by `__prepare` over an enumeration with one qualifying
address. -/
theorem stop_raises_attributeError_with_channels :
    prepare false ifacesA ≠ [] ∧
    (stop ⟨true, prepare false ifacesA⟩).2 = some PyErr.attributeError := by
  decide

/-- C2: the claim states that after `stop()` the next discovery round finds no
channels and re-runs `prepare()` on a fresh enumeration.  The code never
clears `_discover_sockets` in `stop()`, so the next round sees a non-empty
channel list, skips `__prepare`, and keeps the stale channels even when the
interface enumeration has changed: evaluated here with a first enumeration
`ifacesA` and a different later enumeration `ifacesB`. -/
theorem discover_skips_prepare_after_stop :
    (stop ⟨true, prepare false ifacesA⟩).1.channels = prepare false ifacesA ∧
    prepare false ifacesA ≠ [] ∧
    (discover false ifacesB (stop ⟨true, prepare false ifacesA⟩).1).1.channels =
      prepare false ifacesA ∧
    prepare false ifacesA ≠ prepare false ifacesB := by
  decide

/-- C3 counterexample: the claim states that a later segment is split on the
first `:` only, with everything after it (further colons included) as the
value, and inserted without error.  On `"X@1.2.3.4|time:12:30"` the code's
two-variable unpacking of `part.split(":")` raises `ValueError` instead. -/
theorem parse_errors_on_second_colon :
    parseAdvert (("X@1.2.3.4|time:12:30").toList) = .error PyErr.valueError := by
  decide

/-- C3 (amended): a later segment containing exactly one `:` is split into
the key before and the value after the colon and inserted into the properties
mapping; a later segment containing two or more `:` characters instead makes
the parse raise `ValueError`, because the two-variable unpacking of the colon
split fails. -/
theorem colon_segment_split_once_or_raise
    (props : List (PyStr × PyStr)) (k v w : PyStr) (rest : List PyStr)
    (hk : ':' ∉ k) (hv : ':' ∉ v) :
    buildProperties props ((k ++ ':' :: v) :: rest) =
      buildProperties (dictSet props k v) rest ∧
    buildProperties props ((k ++ ':' :: (v ++ ':' :: w)) :: rest) = .error .valueError :=
  ⟨buildProperties_pair props k v rest hk hv, buildProperties_multi props k v w rest hk hv⟩

/-- Witness for the amended C3 at the segments `time:12` and `time:12:30`. -/
theorem colon_segment_split_once_or_raise_witness :
    buildProperties [] ((("time").toList ++ ':' :: ("12").toList) :: []) =
      buildProperties (dictSet [] (("time").toList) (("12").toList)) [] ∧
    buildProperties []
        ((("time").toList ++ ':' :: (("12").toList ++ ':' :: ("30").toList)) :: []) =
      .error .valueError :=
  colon_segment_split_once_or_raise [] (("time").toList) (("12").toList) (("30").toList) []
    (by decide) (by decide)

/-- C4: every well-formed message `<n>@<a>|k1:v1|k2:v2` — exactly one `@` in
the first pipe segment, exactly one `:` in each later segment, distinct keys —
parses to `deviceId = "<n>@<a>"`, `name = "<n>"`, `address = "<a>"` and the
properties mapping `{k1: v1, k2: v2}`. -/
theorem parse_wellformed_two_pairs
    (n a k1 v1 k2 v2 : PyStr)
    (h1 : '@' ∉ n) (h2 : '@' ∉ a)
    (h3 : '|' ∉ n) (h4 : '|' ∉ a)
    (h5 : '|' ∉ k1) (h6 : '|' ∉ v1) (h7 : '|' ∉ k2) (h8 : '|' ∉ v2)
    (h9 : ':' ∉ k1) (h10 : ':' ∉ v1) (h11 : ':' ∉ k2) (h12 : ':' ∉ v2)
    (h13 : k1 ≠ k2) :
    parseAdvert ((n ++ '@' :: a) ++ '|' :: ((k1 ++ ':' :: v1) ++ '|' :: (k2 ++ ':' :: v2))) =
      .ok (some ⟨n ++ '@' :: a, n, a, [(k1, v1), (k2, v2)]⟩) := by
  have hseg0 : '|' ∉ n ++ '@' :: a := by
    simp [List.mem_append, List.mem_cons, h3, h4]
  have hseg1 : '|' ∉ k1 ++ ':' :: v1 := by
    simp [List.mem_append, List.mem_cons, h5, h6]
  have hseg2 : '|' ∉ k2 ++ ':' :: v2 := by
    simp [List.mem_append, List.mem_cons, h7, h8]
  have hparts :
      pySplit '|' ((n ++ '@' :: a) ++ '|' :: ((k1 ++ ':' :: v1) ++ '|' :: (k2 ++ ':' :: v2))) =
        [n ++ '@' :: a, k1 ++ ':' :: v1, k2 ++ ':' :: v2] := by
    rw [pySplit_append_cons '|' _ hseg0, pySplit_append_cons '|' _ hseg1,
      pySplit_of_not_mem hseg2]
  have hat : pySplit '@' (n ++ '@' :: a) = [n, a] := by
    rw [pySplit_append_cons '@' a h1, pySplit_of_not_mem h2]
  have hmem : '@' ∈ n ++ '@' :: a := List.mem_append_right n (List.mem_cons_self '@' a)
  simp only [parseAdvert, hparts, List.headD_cons, List.tail_cons, List.length_cons]
  rw [if_neg (by simp [hmem])]
  rw [hat]
  simp only [unpack2]
  rw [buildProperties_pair [] k1 v1 _ h9 h10, buildProperties_pair _ k2 v2 _ h11 h12]
  simp [buildProperties, dictSet, h13]

/-- Witness for C4 at the message `X@1.2.3.4|model:J1|status:IDLE`. -/
theorem parse_wellformed_two_pairs_witness :
    parseAdvert ((("X").toList ++ '@' :: ("1.2.3.4").toList) ++ '|' ::
        ((("model").toList ++ ':' :: ("J1").toList) ++ '|' ::
          (("status").toList ++ ':' :: ("IDLE").toList))) =
      .ok (some ⟨("X").toList ++ '@' :: ("1.2.3.4").toList, ("X").toList, ("1.2.3.4").toList,
                 [(("model").toList, ("J1").toList), (("status").toList, ("IDLE").toList)]⟩) :=
  parse_wellformed_two_pairs (("X").toList) (("1.2.3.4").toList) (("model").toList)
    (("J1").toList) (("status").toList) (("IDLE").toList)
    (by decide) (by decide) (by decide) (by decide) (by decide) (by decide) (by decide)
    (by decide) (by decide) (by decide) (by decide) (by decide) (by decide)

/-- C5: when the same key occurs in several segments, the later occurrence
overwrites the earlier one: `"X@1.2.3.4|model:J1|model:J2"` parses to a
properties mapping whose sole entry binds `model` to `J2`. -/
theorem parse_duplicate_model_last_wins :
    parseAdvert (("X@1.2.3.4|model:J1|model:J2").toList) =
      .ok (some ⟨("X@1.2.3.4").toList, ("X").toList, ("1.2.3.4").toList,
                 [(("model").toList, ("J2").toList)]⟩) ∧
    dictGet [(("model").toList, ("J2").toList)] (("model").toList) =
      some (("J2").toList) := by
  decide

/-- C6: device registration is idempotent first-seen-wins.  Registering into
a registry that already holds a record for the device id is a no-op, and
registering the same id twice — the second time with a different address and
properties — leaves exactly one record for that id, equal to the first one
inserted. -/
theorem register_first_seen_wins
    (reg reg2 : Registry) (id a : PyStr) (p : List (PyStr × PyStr))
    (a2 : PyStr) (p2 : List (PyStr × PyStr))
    (hn : getOutputDevice reg id = none)
    (hs : (getOutputDevice reg2 id).isSome = true) :
    registerDevice reg2 id a2 p2 = reg2 ∧
    registerDevice (registerDevice reg id a p) id a2 p2 = registerDevice reg id a p ∧
    recordsFor (registerDevice reg id a p) id = [⟨id, a, p⟩] := by
  have hfirst : registerDevice reg id a p = reg ++ [⟨id, a, p⟩] := by
    simp [registerDevice, hn, addOutputDevice]
  refine ⟨?_, ?_, ?_⟩
  · cases hg : getOutputDevice reg2 id with
    | none => rw [hg] at hs; simp at hs
    | some r => simp [registerDevice, hg]
  · rw [hfirst]
    have hsome : getOutputDevice (reg ++ [(⟨id, a, p⟩ : DeviceRecord)]) id = some ⟨id, a, p⟩ := by
      rw [getOutputDevice_append_right hn]
      simp [getOutputDevice]
    simp [registerDevice, hsome]
  · rw [hfirst, recordsFor_append, recordsFor_eq_nil hn]
    simp [recordsFor]

/-- Witness for C6: a fresh registry, a second registration with a different
address and properties, and a registry that already contains the record. -/
theorem register_first_seen_wins_witness :
    registerDevice [⟨("X@1").toList, ("1").toList, []⟩] (("X@1").toList) (("2").toList)
        [(("m").toList, ("v").toList)] = [⟨("X@1").toList, ("1").toList, []⟩] ∧
    registerDevice (registerDevice [] (("X@1").toList) (("1").toList) [])
        (("X@1").toList) (("2").toList) [(("m").toList, ("v").toList)] =
      registerDevice [] (("X@1").toList) (("1").toList) [] ∧
    recordsFor (registerDevice [] (("X@1").toList) (("1").toList) []) (("X@1").toList) =
      [⟨("X@1").toList, ("1").toList, []⟩] :=
  register_first_seen_wins [] [⟨("X@1").toList, ("1").toList, []⟩] (("X@1").toList)
    (("1").toList) [] (("2").toList) [(("m").toList, ("v").toList)] (by decide) (by decide)

/-- C7: a successfully parsed advertisement whose `model` property is absent
or different from the configured product identity is discarded without error
and without touching the registry: `__parseMessage` returns before the device
lookup and insert. -/
theorem model_mismatch_discarded
    (msg : PyStr) (adv : Advert) (reg : Registry)
    (hp : parseAdvert msg = .ok (some adv))
    (hm : dictGet adv.properties (("model").toList) ≠ some MACHINE_NAME) :
    parseMessageStep reg msg = .ok reg := by
  unfold parseMessageStep
  rw [hp]
  exact if_pos hm

/-- Witness for C7 at `X@1.2.3.4|model:XX`, whose `model` differs from the
configured identity, on the empty registry. -/
theorem model_mismatch_discarded_witness :
    parseMessageStep [] (("X@1.2.3.4|model:XX").toList) = .ok [] :=
  model_mismatch_discarded (("X@1.2.3.4|model:XX").toList)
    ⟨("X@1.2.3.4").toList, ("X").toList, ("1.2.3.4").toList,
     [(("model").toList, ("XX").toList)]⟩ [] (by decide) (by decide)

/-- C8: a datagram whose payload is not valid UTF-8 is silently swallowed by
the drain loop: the decode failure (Python's `UnicodeDecodeError`) is caught,
no device is registered, no exception escapes, and draining continues with
the remaining datagrams. -/
theorem invalid_utf8_swallowed
    (reg : Registry) (d : Datagram) (ds : List Datagram)
    (hdec : utf8Decode d.bytes = none) :
    readSocketStep reg d = .ok reg ∧
    readSocket reg (d :: ds) = readSocket reg ds := by
  have hstep : readSocketStep reg d = .ok reg := by
    unfold readSocketStep
    split
    · rw [hdec]
    · rfl
  exact ⟨hstep, by simp [readSocket, hstep]⟩

/-- Witness for C8 on the one-byte payload `0xFF`, which is not valid UTF-8. -/
theorem invalid_utf8_swallowed_witness :
    readSocketStep [] ⟨true, false, [], [255]⟩ = .ok [] ∧
    readSocket [] [⟨true, false, [], [255]⟩] = readSocket [] [] :=
  invalid_utf8_swallowed [] ⟨true, false, [], [255]⟩ [] (by decide)

/-- C9: `__prepare` creates exactly one broadcast channel per qualifying
address entry — loopback and non-IPv4 entries are excluded, every socket is
bound to its entry's address, and when the qualifying addresses are pairwise
distinct there is exactly one channel per distinct address — and a discovery
round sends exactly one probe per channel, the literal `b"discover"` payload
to the channel entry's broadcast address on port 20054. -/
theorem prepare_one_channel_per_address
    (isW b : Bool) (interfaces : List (List AddressEntry))
    (hnd : ((interfaces.flatten.filter qualifies).map (fun e => e.ip)).Nodup) :
    (prepare isW interfaces).map Prod.snd = interfaces.flatten.filter qualifies ∧
    ((prepare isW interfaces).all (fun ch => qualifies ch.2)) = true ∧
    (prepare isW interfaces).map (fun ch => ch.1.boundAddr) =
      (interfaces.flatten.filter qualifies).map (fun e => e.ip) ∧
    ((prepare isW interfaces).map (fun ch => ch.2.ip)).Nodup ∧
    (discover isW interfaces ⟨b, prepare isW interfaces⟩).2 =
      (prepare isW interfaces).map (fun ch => ⟨discoverPayload, ch.2.broadcast, DISCOVER_PORT⟩) := by
  have hsnd : (prepare isW interfaces).map Prod.snd = interfaces.flatten.filter qualifies :=
    prepareLoop_map_snd isW 20054 interfaces.flatten
  refine ⟨hsnd, ?_, prepareLoop_map_bound isW 20054 interfaces.flatten, ?_, ?_⟩
  · exact List.all_eq_true.mpr (prepare_all_qualifies isW interfaces)
  · have hmm : (prepare isW interfaces).map (fun ch => ch.2.ip) =
        ((prepare isW interfaces).map Prod.snd).map (fun e => e.ip) := by
      rw [List.map_map]
      rfl
    rw [hmm, hsnd]
    exact hnd
  · simp [discover]

/-- Witness for C9 on an enumeration with two qualifying addresses, one
loopback entry and one IPv6 entry. -/
theorem prepare_one_channel_per_address_witness :
    (prepare false ifacesTwo).map Prod.snd = ifacesTwo.flatten.filter qualifies ∧
    ((prepare false ifacesTwo).all (fun ch => qualifies ch.2)) = true ∧
    (prepare false ifacesTwo).map (fun ch => ch.1.boundAddr) =
      (ifacesTwo.flatten.filter qualifies).map (fun e => e.ip) ∧
    ((prepare false ifacesTwo).map (fun ch => ch.2.ip)).Nodup ∧
    (discover false ifacesTwo ⟨false, prepare false ifacesTwo⟩).2 =
      (prepare false ifacesTwo).map (fun ch => ⟨discoverPayload, ch.2.broadcast, DISCOVER_PORT⟩) :=
  prepare_one_channel_per_address false false ifacesTwo (by decide)

/-- C10: a message whose first pipe segment contains two or more `@`
characters makes the two-variable unpacking of the `@`-split raise
`ValueError`, and since the drain loop catches only `UnicodeDecodeError`,
the exception propagates out of `_readSocket`. -/
theorem multi_at_raises_valueError
    (msg : PyStr) (reg : Registry) (d : Datagram) (ds : List Datagram)
    (hat : 2 ≤ List.count '@' ((pySplit '|' msg).headD []))
    (hv : d.valid = true) (hs : d.senderNull = false)
    (hdec : utf8Decode d.bytes = some msg) :
    parseAdvert msg = .error .valueError ∧
    readSocket reg (d :: ds) = .error .valueError := by
  have hmem : '@' ∈ (pySplit '|' msg).headD [] := by
    by_contra hmem2
    have := List.count_eq_zero_of_not_mem hmem2
    omega
  have hlen : (pySplit '@' ((pySplit '|' msg).headD [])).length ≠ 2 := by
    rw [pySplit_length]
    omega
  have hcond : ¬ ((pySplit '|' msg).length < 1 ∨ '@' ∉ (pySplit '|' msg).headD []) := by
    intro hor
    cases hor with
    | inl h =>
      exact pySplit_ne_nil '|' msg (List.length_eq_zero.mp (by omega))
    | inr h => exact h hmem
  have hparse : parseAdvert msg = .error .valueError := by
    simp only [parseAdvert]
    rw [if_neg hcond, unpack2_eq_error _ hlen]
  refine ⟨hparse, ?_⟩
  have hstep : readSocketStep reg d = .error .valueError := by
    simp [readSocketStep, hv, hs, hdec, parseMessageStep, hparse]
  simp [readSocket, hstep]

/-- Witness for C10 on the message `a@b@c`, delivered as a valid datagram
with ASCII payload bytes. -/
theorem multi_at_raises_valueError_witness :
    parseAdvert (("a@b@c").toList) = .error .valueError ∧
    readSocket [] [⟨true, false, [], [97, 64, 98, 64, 99]⟩] = .error .valueError :=
  multi_at_raises_valueError (("a@b@c").toList) [] ⟨true, false, [], [97, 64, 98, 64, 99]⟩ []
    (by decide) (by decide) (by decide) (by decide)
